import Mathlib

/-!
Shallow embedding of `arjunbhagoji/blackbox-attacks-eccv`:
`src/mnist.py` (MNIST architecture factories, dataset loader, model
persistence) and `src/tutorial/cifar10_train_ensadv.py` (CIFAR-10
ensemble-adversarial training driver).

Machine floating point is modelled by exact rationals; the NaN sentinel
used by the CIFAR trainer is modelled explicitly by an extra value.
-/

namespace Mnist

/-- Names bound at module level in `src/mnist.py` (its import statements,
lines 1-9, plus the module's own definitions).  `Conv2D` is NOT among
them: only `Convolution2D` is imported from `keras.layers`. -/
def moduleNames : List String :=
  ["mnist", "Sequential", "model_from_json",
   "Dense", "Dropout", "Activation", "Flatten", "Input",
   "Convolution2D", "MaxPooling2D",
   "ImageDataGenerator", "np_utils", "argparse", "np",
   "IMAGE_ROWS", "IMAGE_COLS", "NUM_CHANNELS", "NUM_CLASSES",
   "data_mnist", "modelA", "modelB", "modelC", "modelD", "modelE",
   "modelF", "model_mnist", "data_gen_mnist", "load_model"]

/-- Constants at the top of `src/mnist.py` (lines 12-15). -/
def IMAGE_ROWS : Nat := 28

def IMAGE_COLS : Nat := 28

def NUM_CHANNELS : Nat := 1

def NUM_CLASSES : Nat := 10

/-- Keras border modes (`border_mode=` in Keras 1). -/
inductive Padding
  | valid
  | same
  deriving DecidableEq, Repr

/-- A Keras layer as used in `src/mnist.py`.  `inS` records an
`input_shape=` keyword argument when the source passes one.
Convolution carries filters, kernel size and subsample (stride). -/
inductive Layer
  | conv (filters kh kw sh sw : Nat) (pad : Padding)
      (inS : Option (Nat × Nat × Nat))
  | activ (name : String)
  | dropout (rate : ℚ) (inS : Option (Nat × Nat × Nat))
  | maxPool (ph pw : Nat)
  | flattenL (inS : Option (Nat × Nat × Nat))
  | dense (units : Nat)
  deriving DecidableEq, Repr

/-- A Keras `Sequential` model: the ordered list of added layers. -/
structure Model where
  layers : List Layer
  deriving DecidableEq, Repr

/-- Per-sample tensor shape flowing through a model. -/
inductive Shape
  | img (h w c : Nat)
  | flat (n : Nat)
  deriving DecidableEq, Repr

/-- Spatial output size of a convolution/pool window (Keras 1 semantics):
`valid` needs the kernel to fit and yields `(n - k) / s + 1`;
`same` yields `ceil(n / s)`. -/
def convOut (pad : Padding) (n k s : Nat) : Option Nat :=
  match pad with
  | .valid => if k ≤ n ∧ 0 < s then some ((n - k) / s + 1) else none
  | .same => if 0 < s then some ((n + s - 1) / s) else none

/-- Shape transformation of one layer, `none` on a shape error
(including a declared `input_shape` that does not match the fed shape). -/
def layerOut (l : Layer) (s : Shape) : Option Shape :=
  let checkIn : Option (Nat × Nat × Nat) → Option Unit := fun inS =>
    match inS with
    | none => some ()
    | some (h, w, c) => if s = .img h w c then some () else none
  match l with
  | .conv f kh kw sh sw pad inS =>
      match s with
      | .img h w c =>
          (checkIn inS).bind fun _ =>
            (convOut pad h kh sh).bind fun h2 =>
              (convOut pad w kw sw).map fun w2 =>
                let _ := c
                .img h2 w2 f
      | .flat _ => none
  | .activ _ => some s
  | .dropout _ inS => (checkIn inS).map fun _ => s
  | .maxPool ph pw =>
      match s with
      | .img h w c =>
          (convOut .valid h ph ph).bind fun h2 =>
            (convOut .valid w pw pw).map fun w2 => .img h2 w2 c
      | .flat _ => none
  | .flattenL inS =>
      (checkIn inS).map fun _ =>
        match s with
        | .img h w c => .flat (h * w * c)
        | .flat n => .flat n
  | .dense u =>
      match s with
      | .flat _ => some (.flat u)
      | .img _ _ _ => none

/-- Output shape of a whole model on a per-sample input shape. -/
def runShape (m : Model) (s : Shape) : Option Shape :=
  m.layers.foldl (fun acc l => acc.bind (layerOut l)) (some s)

/-- Errors a Python model factory can raise. -/
inductive BuildError
  | nameError (name : String)
  | indexError
  deriving DecidableEq, Repr

/-- `modelA` (`src/mnist.py` lines 68-85).  Its first statement calls
`Conv2D(64, (5, 5), padding='valid')`, but `Conv2D` is not a module-level
name (only `Convolution2D` is imported), so evaluating the call raises
`NameError` before any layer is added. -/
def modelA : Except BuildError Model :=
  if "Conv2D" ∈ moduleNames then
    .ok ⟨[.conv 64 5 5 1 1 .valid none, .activ "relu",
          .conv 64 5 5 1 1 .valid none, .activ "relu",
          .dropout (1/4) none,
          .flattenL none, .dense 128, .activ "relu",
          .dropout (1/2) none, .dense NUM_CLASSES]⟩
  else .error (.nameError "Conv2D")

/-- `modelB` (lines 88-111): dropout with input shape, three strided
convolutions, flatten, dense 10. -/
def modelB : Except BuildError Model :=
  .ok ⟨[.dropout (1/5) (some (IMAGE_ROWS, IMAGE_COLS, NUM_CHANNELS)),
        .conv 64 8 8 2 2 .same none, .activ "relu",
        .conv 128 6 6 2 2 .valid none, .activ "relu",
        .conv 128 5 5 1 1 .valid none, .activ "relu",
        .dropout (1/2) none,
        .flattenL none, .dense NUM_CLASSES]⟩

/-- `modelC` (lines 114-134). -/
def modelC : Except BuildError Model :=
  .ok ⟨[.conv 128 3 3 1 1 .valid (some (IMAGE_ROWS, IMAGE_COLS, NUM_CHANNELS)),
        .activ "relu",
        .conv 64 3 3 1 1 .valid none, .activ "relu",
        .dropout (1/4) none,
        .flattenL none, .dense 128, .activ "relu",
        .dropout (1/2) none, .dense NUM_CLASSES]⟩

/-- `modelD` (lines 137-154): flatten then four dense-300 relu layers. -/
def modelD : Except BuildError Model :=
  .ok ⟨[.flattenL (some (IMAGE_ROWS, IMAGE_COLS, NUM_CHANNELS)),
        .dense 300, .activ "relu", .dropout (1/2) none,
        .dense 300, .activ "relu", .dropout (1/2) none,
        .dense 300, .activ "relu", .dropout (1/2) none,
        .dense 300, .activ "relu", .dropout (1/2) none,
        .dense NUM_CLASSES]⟩

/-- `modelE` (lines 156-168). -/
def modelE : Except BuildError Model :=
  .ok ⟨[.flattenL (some (IMAGE_ROWS, IMAGE_COLS, NUM_CHANNELS)),
        .dense 100, .activ "relu",
        .dense 100, .activ "relu",
        .dense NUM_CLASSES]⟩

/-- `modelF` (lines 170-193): two conv/pool blocks, dense 1024, dense 10. -/
def modelF : Except BuildError Model :=
  .ok ⟨[.conv 32 3 3 1 1 .valid (some (IMAGE_ROWS, IMAGE_COLS, NUM_CHANNELS)),
        .activ "relu",
        .maxPool 2 2,
        .conv 64 3 3 1 1 .valid none, .activ "relu",
        .maxPool 2 2,
        .flattenL none, .dense 1024, .activ "relu",
        .dense NUM_CLASSES]⟩

/-- Python list indexing `xs[i]`: non-negative indices below the length,
negative indices counted from the end, `IndexError` otherwise. -/
def pyIndex {α : Type} (xs : List α) (i : Int) : Option α :=
  if 0 ≤ i ∧ i < (xs.length : Int) then xs.get? i.toNat
  else if -(xs.length : Int) ≤ i ∧ i < 0 then
    xs.get? ((xs.length : Int) + i).toNat
  else none

/-- The list `models = [modelA, modelB, modelC, modelD, modelE, modelF]`
built inside `model_mnist` (line 200). -/
def mnistFactories : List (Except BuildError Model) :=
  [modelA, modelB, modelC, modelD, modelE, modelF]

/-- `model_mnist(type=0)` (lines 195-202): index the factory list with
`type` and call the selected factory; a failed lookup is Python's
`IndexError`. -/
def model_mnist (type : Int := 0) : Except BuildError Model :=
  match pyIndex mnistFactories type with
  | none => .error .indexError
  | some r => r

/-- Feeding a batch of `n` samples of shape (28,28,1) through a model:
Keras maps the per-sample shape over the batch dimension. -/
def feedBatch (n : Nat) (m : Model) : Option (Nat × Shape) :=
  (runShape m (.img IMAGE_ROWS IMAGE_COLS NUM_CHANNELS)).map fun s => (n, s)

/-- Result of building the variant `t` and feeding a batch of `n`
samples, `none` if construction or any shape check fails. -/
def variantOutput (t : Int) (n : Nat) : Option (Nat × Shape) :=
  match model_mnist t with
  | .error _ => none
  | .ok m => feedBatch n m

/-- `np_utils.to_categorical(y, nb_classes)` on one integer label: an
indicator row of length `nb_classes` with a 1 at index `y`. -/
def to_categorical (nb_classes : Nat) (y : Nat) : List ℚ :=
  (List.range nb_classes).map fun i => if i = y then 1 else 0

/-- Label tensors returned by `data_mnist`: integer class vectors when
`one_hot=False`, one-hot float matrices when `one_hot=True`. -/
inductive Labels
  | ints (ys : List Nat)
  | oneHot (rows : List (List ℚ))
  deriving DecidableEq, Repr

/-- `data_mnist(one_hot=True)` (lines 30-65), parameterized by the raw
arrays `mnist.load_data()` returns (pixels flattened; the reshape is pure
shape bookkeeping).  Pixels are cast to float and divided by 255; labels
are one-hot encoded when requested, returned unchanged otherwise. -/
def data_mnist (one_hot : Bool := true)
    (rawXtrain rawXtest : List Nat) (rawYtrain rawYtest : List Nat) :
    List ℚ × Labels × List ℚ × Labels :=
  let X_train := rawXtrain.map fun x : Nat => (x : ℚ) / 255
  let X_test := rawXtest.map fun x : Nat => (x : ℚ) / 255
  if one_hot then
    (X_train, .oneHot (rawYtrain.map (to_categorical NUM_CLASSES)),
     X_test, .oneHot (rawYtest.map (to_categorical NUM_CLASSES)))
  else
    (X_train, .ints rawYtrain, X_test, .ints rawYtest)

/-- Errors visible to `load_model`; a `buildError` is a Python exception
escaping the `model_mnist` fallback. -/
inductive LoadErr
  | jsonError (msg : String)
  | weightsError (msg : String)
  | buildError (e : BuildError)
  deriving DecidableEq, Repr

/-- `load_model(model_path, type=1)` (lines 212-223), parameterized by the
environment: `fs` maps a path to its contents (`none` meaning the open
raises `IOError`), `fromJson` is `keras.models.model_from_json`, and
`loadWeights` is `model.load_weights`.  Only `IOError` from the `try`
block is caught (falling back to `model_mnist(type)`); a failure of
`fromJson` inside the `try` is not an `IOError` and propagates.  In both
branches weights are then loaded from `model_path`. -/
def load_model (fs : String → Option String)
    (fromJson : String → Except LoadErr Model)
    (loadWeights : String → Model → Except LoadErr Model)
    (model_path : String) (type : Int := 1) : Except LoadErr Model :=
  let model : Except LoadErr Model :=
    match fs (model_path ++ ".json") with
    | some json_string => fromJson json_string
    | none => (model_mnist type).mapError .buildError
  model.bind fun m => loadWeights model_path m

end Mnist

namespace Cifar

/-- A floating-point value: either the NaN sentinel or an exact number
(floats modelled by rationals). -/
inductive Val
  | nan
  | fin (q : ℚ)
  deriving DecidableEq, Repr

/-- Addition with NaN propagation. -/
def Val.add : Val → Val → Val
  | .nan, _ => .nan
  | _, .nan => .nan
  | .fin a, .fin b => .fin (a + b)

/-- Multiplication by a (finite) scalar, NaN propagating. -/
def Val.smul (c : ℚ) : Val → Val
  | .nan => .nan
  | .fin a => .fin (c * a)

/-- `tf.sign` on one value (NaN maps to NaN). -/
def Val.sign : Val → Val
  | .nan => .nan
  | .fin a => .fin (if 0 < a then 1 else if a < 0 then -1 else 0)

/-- `tf.clip_by_value` on one value: `minimum(maximum(x, lo), hi)`;
NaN propagates. -/
def Val.clip (lo hi : ℚ) : Val → Val
  | .nan => .nan
  | .fin a => .fin (min (max a lo) hi)

/-- A dense tensor: a shape and an entry for every multi-index. -/
@[ext]
structure Tensor where
  shape : List Nat
  entry : List Nat → Val

/-- Pointwise addition of same-shaped tensors (the only use in the
trainer adds a perturbation of the images' own shape). -/
def Tensor.add (a b : Tensor) : Tensor :=
  ⟨a.shape, fun ix => (a.entry ix).add (b.entry ix)⟩

/-- Scalar multiple of a tensor. -/
def Tensor.smul (c : ℚ) (a : Tensor) : Tensor :=
  ⟨a.shape, fun ix => (a.entry ix).smul c⟩

/-- `tf.sign` applied elementwise. -/
def Tensor.sign (a : Tensor) : Tensor :=
  ⟨a.shape, fun ix => (a.entry ix).sign⟩

/-- `tf.clip_by_value` applied elementwise. -/
def Tensor.clip (lo hi : ℚ) (a : Tensor) : Tensor :=
  ⟨a.shape, fun ix => (a.entry ix).clip lo hi⟩

/-- `tf.fill(shape, v)`: constant tensor. -/
def Tensor.fill (shape : List Nat) (v : Val) : Tensor :=
  ⟨shape, fun _ => v⟩

/-- `tf.stop_gradient`: the identity on values (it only severs the
gradient graph). -/
def stop_gradient (t : Tensor) : Tensor := t

/-- First index of the maximum of a list of values (finite values
compared by their rationals; comparisons involving NaN are false, as in
IEEE, so a later entry never displaces on a NaN comparison). -/
def argmaxIdx (row : List Val) : Nat :=
  let gt : Val → Val → Bool := fun a b =>
    match a, b with
    | .fin x, .fin y => decide (y < x)
    | _, _ => false
  (row.foldl
    (fun acc v =>
      let best := acc.1
      let bestIx := acc.2.1
      let i := acc.2.2
      if gt v best then (v, i, i + 1) else (best, bestIx, i + 1))
    (match row with
     | [] => (.nan, 0, 0)
     | v :: _ => (v, 0, 0))).2.1

/-- `tf.argmax(logits, axis=1)` on a `[batch, classes]` tensor: a
`[batch]` tensor of predicted class indices. -/
def argmax1 (logits : Tensor) : Tensor :=
  match logits.shape with
  | [b, c] =>
      ⟨[b], fun ix =>
        match ix with
        | [i] => .fin (argmaxIdx ((List.range c).map fun j =>
            logits.entry [i, j]))
        | _ => .nan⟩
  | _ => ⟨[], fun _ => .nan⟩

/-- `noleak_labels = tf.argmax(logits, axis=1)`
(`src/tutorial/cifar10_train_ensadv.py` line 84). -/
def noleak_labels (logits : Tensor) : Tensor :=
  argmax1 logits

/-- `noleak_loss = cifar10_reusable.loss(logits, noleak_labels)`
(line 85); `lossFn` stands for the external `cifar10_reusable.loss`. -/
def noleak_loss (lossFn : Tensor → Tensor → Tensor) (logits : Tensor) :
    Tensor :=
  lossFn logits (noleak_labels logits)

/-- `grads, = tf.gradients(noleak_loss, images)` (line 86); `gradFn`
stands for the external `tf.gradients` builder. -/
def adv_grads (lossFn : Tensor → Tensor → Tensor)
    (gradFn : Tensor → Tensor → Tensor) (logits images : Tensor) :
    Tensor :=
  gradFn (noleak_loss lossFn logits) images

/-- `make_dynamic_adv_images()` (lines 82-89): FGSM step
`stop_gradient(clip_by_value(images + epsilon * sign(grads), 0., 255.))`
where the gradient is taken of the loss at the model's own predicted
labels. -/
def make_dynamic_adv_images (lossFn : Tensor → Tensor → Tensor)
    (gradFn : Tensor → Tensor → Tensor) (epsilon : ℚ)
    (logits images : Tensor) : Tensor :=
  let grads := adv_grads lossFn gradFn logits images
  let perturbation := Tensor.smul epsilon (Tensor.sign grads)
  stop_gradient (Tensor.clip 0 255 (Tensor.add images perturbation))

/-- The dynamic adversarial batch as built inside `train()`: the
ground-truth `labels` tensor is in scope there but is not an input of
the computation. -/
def dynamic_adv_in_train (lossFn : Tensor → Tensor → Tensor)
    (gradFn : Tensor → Tensor → Tensor) (epsilon : ℚ)
    (logits images : Tensor) (labels : Tensor) : Tensor :=
  let _ := labels
  make_dynamic_adv_images lossFn gradFn epsilon logits images

/-- `make_poison()` (lines 93-94):
`tf.fill([FLAGS.batch_size, 32, 32, 3], float('NaN'))`. -/
def make_poison (batch_size : Nat) : Tensor :=
  Tensor.fill [batch_size, 32, 32, 3] .nan

/-- The `tf.case` dispatch building `adv_images` (lines 97-103): the
first true predicate in order `adv_choice==0`, `==1`, `==2` wins, the
default is the poison tensor.  `images_adv_thin` is in scope in
`train()` but deliberately not listed. -/
def adv_images (adv_choice : Int) (dynamic_adv_images : Tensor)
    (images_adv_wide images_adv_tutorial : Tensor) (batch_size : Nat) :
    Tensor :=
  if adv_choice = 0 then dynamic_adv_images
  else if adv_choice = 1 then images_adv_wide
  else if adv_choice = 2 then images_adv_tutorial
  else make_poison batch_size

/-- The adversarial-source selection with everything the surrounding
`train()` scope provides, `images_adv_thin` included (line 73 loads four
precomputed variants; the `tf.case` on lines 98-103 uses only wide and
tutorial besides the dynamic batch). -/
def adv_images_in_train (adv_choice : Int) (dynamic_adv_images : Tensor)
    (images_adv_thin images_adv_wide images_adv_tutorial : Tensor)
    (batch_size : Nat) : Tensor :=
  let _ := images_adv_thin
  adv_images adv_choice dynamic_adv_images images_adv_wide
    images_adv_tutorial batch_size

/-- `loss_benign = cifar10_reusable.loss(logits, labels)` (line 80),
with `logits = inference(images)` (line 77); `inferFn` stands for the
external `cifar10_reusable.inference`. -/
def loss_benign (lossFn : Tensor → Tensor → Tensor)
    (inferFn : Tensor → Tensor) (images labels : Tensor) : Tensor :=
  lossFn (inferFn images) labels

/-- `loss_adv = cifar10_reusable.loss(adv_logits, labels)` (lines
107-108) with `adv_logits = inference(adv_images)`. -/
def loss_adv (lossFn : Tensor → Tensor → Tensor)
    (inferFn : Tensor → Tensor) (advImages labels : Tensor) : Tensor :=
  lossFn (inferFn advImages) labels

/-- `loss_total = loss_benign + loss_adv` (line 109). -/
def loss_total (lossFn : Tensor → Tensor → Tensor)
    (inferFn : Tensor → Tensor) (images advImages labels : Tensor) :
    Tensor :=
  Tensor.add (loss_benign lossFn inferFn images labels)
    (loss_adv lossFn inferFn advImages labels)

/-- Constant sample tensor used to instantiate theorems concretely. -/
def sampleTensor (shape : List Nat) (q : ℚ) : Tensor :=
  Tensor.fill shape (.fin q)

/-- Sample loss graph: returns its first argument. -/
def idLoss : Tensor → Tensor → Tensor := fun t _ => t

/-- Sample inference graph: the identity. -/
def idInfer : Tensor → Tensor := fun t => t

/-- Sample gradient builder with finite entries everywhere. -/
def constGrad : Tensor → Tensor → Tensor :=
  fun _ _ => Tensor.fill [2] (.fin 2)

end Cifar

namespace Mnist

/-- Helper: `pyIndex` is `none` exactly outside both index ranges. -/
theorem pyIndex_none {α : Type} (xs : List α) (i : Int)
    (h1 : ¬(0 ≤ i ∧ i < (xs.length : Int)))
    (h2 : ¬(-(xs.length : Int) ≤ i ∧ i < 0)) : pyIndex xs i = none := by
  unfold pyIndex
  rw [if_neg h1, if_neg h2]

end Mnist

/-- Claim C1: for every variant index in [0,5] and batch size N, building
the architecture via `model_mnist` and feeding a batch (N,28,28,1) yields
output (N,10).  The code violates this for index 0: `modelA` calls the
undefined name `Conv2D` (only `Convolution2D` is imported), so building
variant 0 raises `NameError`; variants 1-5 do produce (N,10). -/
theorem claimC1_variant0_raises_variants_1_to_5_give_10 :
    Mnist.model_mnist 0 = .error (.nameError "Conv2D")
    ∧ (∀ n, Mnist.variantOutput 0 n = none)
    ∧ (∀ n, Mnist.variantOutput 1 n = some (n, .flat 10))
    ∧ (∀ n, Mnist.variantOutput 2 n = some (n, .flat 10))
    ∧ (∀ n, Mnist.variantOutput 3 n = some (n, .flat 10))
    ∧ (∀ n, Mnist.variantOutput 4 n = some (n, .flat 10))
    ∧ (∀ n, Mnist.variantOutput 5 n = some (n, .flat 10)) := by
  exact ⟨rfl, fun n => rfl, fun n => rfl, fun n => rfl, fun n => rfl,
    fun n => rfl, fun n => rfl⟩

/-- Claim C5 counterexample: index -1 lies outside [0,5], yet
`model_mnist(-1)` does not fail: Python negative indexing selects the
last factory, `modelF`, which builds successfully. -/
theorem claimC5_counterexample_negative_index_succeeds :
    Mnist.model_mnist (-1) = Mnist.modelF
    ∧ Mnist.model_mnist (-1) = .ok ⟨[.conv 32 3 3 1 1 .valid (some (28, 28, 1)),
        .activ "relu",
        .maxPool 2 2,
        .conv 64 3 3 1 1 .valid none, .activ "relu",
        .maxPool 2 2,
        .flattenL none, .dense 1024, .activ "relu",
        .dense 10]⟩ := by
  exact ⟨rfl, rfl⟩

/-- Claim C5 amended: `model_mnist` fails with `IndexError` only for
indices above 5 or below -6; indices in [-6,-1] are valid Python negative
indices and select the factory of variant `t + 6`. -/
theorem claimC5_amended_index_error_only_beyond_negatives :
    (∀ t : Int, 5 < t ∨ t < -6 → Mnist.model_mnist t = .error .indexError)
    ∧ (∀ t : Int, -6 ≤ t → t < 0 →
        Mnist.model_mnist t = Mnist.model_mnist (t + 6)) := by
  constructor
  · intro t ht
    have hlen : ((Mnist.mnistFactories).length : Int) = 6 := rfl
    unfold Mnist.model_mnist
    rw [Mnist.pyIndex_none _ t (by omega) (by omega)]
  · intro t h1 h2
    interval_cases t <;> rfl

/-- Claim C5 amended, witness: index 6 raises `IndexError`; index -1
behaves as index 5 (`modelF`). -/
theorem claimC5_amended_witness :
    Mnist.model_mnist 6 = .error .indexError
    ∧ Mnist.model_mnist (-1) = Mnist.model_mnist 5 := by
  constructor
  · exact claimC5_amended_index_error_only_beyond_negatives.1 6
      (by norm_num)
  · have h := claimC5_amended_index_error_only_beyond_negatives.2 (-1)
      (by norm_num) (by norm_num)
    norm_num at h
    exact h

/-- Claim C6: when opening `<model_path>.json` raises `IOError`,
`load_model` falls back to `model_mnist(type)` and loads weights from
`<model_path>`; when the sidecar is readable, the model comes from the
JSON description instead, with weights again from `<model_path>`; a
non-IOError failure during the JSON read (malformed JSON) is not caught
and propagates. -/
theorem claimC6_load_model_fallback_and_propagation
    (fs : String → Option String)
    (fromJson : String → Except Mnist.LoadErr Mnist.Model)
    (loadWeights : String → Mnist.Model → Except Mnist.LoadErr Mnist.Model)
    (p : String) (type : Int) :
    (fs (p ++ ".json") = none →
      Mnist.load_model fs fromJson loadWeights p type
        = ((Mnist.model_mnist type).mapError .buildError).bind
            (loadWeights p))
    ∧ (∀ s, fs (p ++ ".json") = some s →
      Mnist.load_model fs fromJson loadWeights p type
        = (fromJson s).bind (loadWeights p))
    ∧ (∀ s e, fs (p ++ ".json") = some s → fromJson s = .error e →
      Mnist.load_model fs fromJson loadWeights p type = .error e) := by
  refine ⟨fun h => ?_, fun s h => ?_, fun s e h he => ?_⟩
  · simp only [Mnist.load_model, h]
  · simp only [Mnist.load_model, h]
  · simp only [Mnist.load_model, h, he, Except.bind]

/-- Claim C6 witness: with a filesystem lacking the sidecar the fallback
path is taken; with a readable sidecar holding malformed JSON the JSON
error propagates. -/
theorem claimC6_witness :
    Mnist.load_model (fun _ => none)
      (fun _ => Except.error (.jsonError "bad"))
      (fun _ m => Except.ok m) "mp" 2
      = ((Mnist.model_mnist 2).mapError .buildError).bind
          ((fun _ m => Except.ok m) "mp")
    ∧ Mnist.load_model (fun _ => some "not json")
        (fun _ => Except.error (.jsonError "bad"))
        (fun _ m => Except.ok m) "mp" 2
      = Except.error (.jsonError "bad") := by
  constructor
  · exact (claimC6_load_model_fallback_and_propagation (fun _ => none)
      (fun _ => Except.error (.jsonError "bad"))
      (fun _ m => Except.ok m) "mp" 2).1 rfl
  · exact (claimC6_load_model_fallback_and_propagation (fun _ => some "not json")
      (fun _ => Except.error (.jsonError "bad"))
      (fun _ m => Except.ok m) "mp" 2).2.2 "not json" (.jsonError "bad") rfl rfl

/-- Claim C10: with the `type` argument omitted and no JSON sidecar,
`load_model` builds variant index 1 — `modelB` — as its fallback, not
variant A: the fallback default is hardcoded to 1. -/
theorem claimC10_default_fallback_is_modelB
    (fs : String → Option String)
    (fromJson : String → Except Mnist.LoadErr Mnist.Model)
    (loadWeights : String → Mnist.Model → Except Mnist.LoadErr Mnist.Model)
    (p : String) (h : fs (p ++ ".json") = none) :
    Mnist.load_model fs fromJson loadWeights p
      = (Mnist.modelB.mapError .buildError).bind (loadWeights p)
    ∧ Mnist.model_mnist 1 = Mnist.modelB
    ∧ Mnist.modelB ≠ Mnist.modelA := by
  refine ⟨?_, rfl, fun hc => ?_⟩
  · simp only [Mnist.load_model, h]
    rfl
  · rw [Mnist.modelB, Mnist.modelA] at hc
    simp only [show ("Conv2D" ∈ Mnist.moduleNames) = False by simp [Mnist.moduleNames],
      if_false] at hc
    exact Except.noConfusion hc

/-- Claim C10 witness: the fallback at a concrete environment with the
`type` argument left to its default. -/
theorem claimC10_witness :
    Mnist.load_model (fun _ => none)
      (fun _ => Except.error (.jsonError "bad"))
      (fun _ m => Except.ok m) "mp"
      = (Mnist.modelB.mapError .buildError).bind
          ((fun _ m => Except.ok m) "mp")
    ∧ Mnist.model_mnist 1 = Mnist.modelB
    ∧ Mnist.modelB ≠ Mnist.modelA :=
  claimC10_default_fallback_is_modelB (fun _ => none)
    (fun _ => Except.error (.jsonError "bad"))
    (fun _ m => Except.ok m) "mp" rfl

/-- Claim C7: every pixel in the image tensors returned by `data_mnist`
equals the corresponding raw value divided by 255 and lies in [0,1],
given raw pixels in [0,255]. -/
theorem claimC7_pixels_scaled_into_unit_interval (one_hot : Bool)
    (Xtr Xte ytr yte : List Nat)
    (hTr : ∀ x ∈ Xtr, x ≤ 255) (hTe : ∀ x ∈ Xte, x ≤ 255) :
    ((Mnist.data_mnist one_hot Xtr Xte ytr yte).1
      = Xtr.map fun x : Nat => (x : ℚ) / 255)
    ∧ ((Mnist.data_mnist one_hot Xtr Xte ytr yte).2.2.1
      = Xte.map fun x : Nat => (x : ℚ) / 255)
    ∧ (∀ p ∈ (Mnist.data_mnist one_hot Xtr Xte ytr yte).1,
        0 ≤ p ∧ p ≤ 1)
    ∧ (∀ p ∈ (Mnist.data_mnist one_hot Xtr Xte ytr yte).2.2.1,
        0 ≤ p ∧ p ≤ 1) := by
  have h1 : (Mnist.data_mnist one_hot Xtr Xte ytr yte).1
      = Xtr.map fun x : Nat => (x : ℚ) / 255 := by
    cases one_hot <;> simp [Mnist.data_mnist]
  have h2 : (Mnist.data_mnist one_hot Xtr Xte ytr yte).2.2.1
      = Xte.map fun x : Nat => (x : ℚ) / 255 := by
    cases one_hot <;> simp [Mnist.data_mnist]
  have bound : ∀ (L : List Nat), (∀ x ∈ L, x ≤ 255) →
      ∀ p ∈ L.map (fun x : Nat => (x : ℚ) / 255), 0 ≤ p ∧ p ≤ 1 := by
    intro L hL p hp
    rw [List.mem_map] at hp
    obtain ⟨x, hxL, hxp⟩ := hp
    have hx255 : (x : ℚ) ≤ 255 := by exact_mod_cast hL x hxL
    have h0 : (0 : ℚ) ≤ (x : ℚ) := by positivity
    rw [← hxp]
    exact ⟨div_nonneg h0 (by norm_num),
      by rw [div_le_one (by norm_num)]; exact hx255⟩
  exact ⟨h1, h2, h1 ▸ bound Xtr hTr, h2 ▸ bound Xte hTe⟩

/-- Claim C7 witness: concrete raw data with extremal pixels. -/
theorem claimC7_witness :
    ((Mnist.data_mnist true [0, 255, 128] [7] [3] [4]).1
      = [0, 255, 128].map fun x : Nat => (x : ℚ) / 255)
    ∧ ((Mnist.data_mnist true [0, 255, 128] [7] [3] [4]).2.2.1
      = [7].map fun x : Nat => (x : ℚ) / 255)
    ∧ (∀ p ∈ (Mnist.data_mnist true [0, 255, 128] [7] [3] [4]).1,
        0 ≤ p ∧ p ≤ 1)
    ∧ (∀ p ∈ (Mnist.data_mnist true [0, 255, 128] [7] [3] [4]).2.2.1,
        0 ≤ p ∧ p ≤ 1) :=
  claimC7_pixels_scaled_into_unit_interval true [0, 255, 128] [7] [3] [4]
    (by decide) (by decide)

/-- Claim C8: with `one_hot=True` the training labels are the one-hot
rows of the raw labels: each row has length 10, sums to 1, and carries a
1 exactly at the class index; with `one_hot=False` the integer labels
are returned unchanged. -/
theorem claimC8_one_hot_rows_and_plain_labels (Xtr Xte ytr yte : List Nat)
    (h : ∀ y ∈ ytr, y ≤ 9) :
    ((Mnist.data_mnist true Xtr Xte ytr yte).2.1
      = .oneHot (ytr.map (Mnist.to_categorical 10)))
    ∧ (∀ y ∈ ytr,
        (Mnist.to_categorical 10 y).length = 10
        ∧ (Mnist.to_categorical 10 y).sum = 1
        ∧ ∀ j, j < 10 → (Mnist.to_categorical 10 y).get? j
            = some (if j = y then 1 else 0))
    ∧ ((Mnist.data_mnist false Xtr Xte ytr yte).2.1 = .ints ytr) := by
  refine ⟨rfl, ?_, rfl⟩
  intro y hy
  have hy9 : y ≤ 9 := h y hy
  interval_cases y <;>
    exact ⟨rfl, by norm_num [Mnist.to_categorical, List.range_succ],
      fun j hj => by interval_cases j <;> rfl⟩

/-- Claim C8 witness: concrete labels, rows checked at class 0 and 9. -/
theorem claimC8_witness :
    ((Mnist.data_mnist true [1] [2] [0, 9] [5]).2.1
      = .oneHot ([0, 9].map (Mnist.to_categorical 10)))
    ∧ (∀ y ∈ [0, 9],
        (Mnist.to_categorical 10 y).length = 10
        ∧ (Mnist.to_categorical 10 y).sum = 1
        ∧ ∀ j, j < 10 → (Mnist.to_categorical 10 y).get? j
            = some (if j = y then 1 else 0))
    ∧ ((Mnist.data_mnist false [1] [2] [0, 9] [5]).2.1 = .ints [0, 9]) :=
  claimC8_one_hot_rows_and_plain_labels [1] [2] [0, 9] [5] (by decide)

/-- Claim C2: in the adversarial-source selection, draw 0 selects the
dynamic FGSM batch, 1 the precomputed wide batch, 2 the precomputed
tutorial batch; any other draw yields a (batch_size,32,32,3) batch
entirely filled with NaN; and the precomputed thin batch is never
selected (the result does not depend on it). -/
theorem claimC2_selection_dispatch (c : Int)
    (dyn thin wide tut : Cifar.Tensor) (b : Nat) :
    Cifar.adv_images_in_train 0 dyn thin wide tut b = dyn
    ∧ Cifar.adv_images_in_train 1 dyn thin wide tut b = wide
    ∧ Cifar.adv_images_in_train 2 dyn thin wide tut b = tut
    ∧ (c ≠ 0 → c ≠ 1 → c ≠ 2 →
        (Cifar.adv_images_in_train c dyn thin wide tut b).shape
          = [b, 32, 32, 3]
        ∧ ∀ ix, (Cifar.adv_images_in_train c dyn thin wide tut b).entry ix
          = .nan)
    ∧ (∀ thin2, Cifar.adv_images_in_train c dyn thin wide tut b
        = Cifar.adv_images_in_train c dyn thin2 wide tut b) := by
  refine ⟨rfl, rfl, rfl, fun h0 h1 h2 => ?_, fun thin2 => rfl⟩
  simp only [Cifar.adv_images_in_train, Cifar.adv_images]
  rw [if_neg h0, if_neg h1, if_neg h2]
  exact ⟨rfl, fun ix => rfl⟩

/-- Claim C2 witness: draw 0 returns the dynamic batch; the forced draw
value 5 yields the NaN-filled poison batch of shape (4,32,32,3). -/
theorem claimC2_selection_witness :
    Cifar.adv_images_in_train 0 (Cifar.sampleTensor [4] 1)
      (Cifar.sampleTensor [4] 2) (Cifar.sampleTensor [4] 3)
      (Cifar.sampleTensor [4] 4) 4 = Cifar.sampleTensor [4] 1
    ∧ (Cifar.adv_images_in_train 5 (Cifar.sampleTensor [4] 1)
        (Cifar.sampleTensor [4] 2) (Cifar.sampleTensor [4] 3)
        (Cifar.sampleTensor [4] 4) 4).shape = [4, 32, 32, 3]
    ∧ (Cifar.adv_images_in_train 5 (Cifar.sampleTensor [4] 1)
        (Cifar.sampleTensor [4] 2) (Cifar.sampleTensor [4] 3)
        (Cifar.sampleTensor [4] 4) 4).entry [0, 0, 0, 0] = .nan := by
  refine ⟨?_, ?_, ?_⟩
  · exact (claimC2_selection_dispatch 5 (Cifar.sampleTensor [4] 1)
      (Cifar.sampleTensor [4] 2) (Cifar.sampleTensor [4] 3)
      (Cifar.sampleTensor [4] 4) 4).1
  · exact ((claimC2_selection_dispatch 5 (Cifar.sampleTensor [4] 1)
      (Cifar.sampleTensor [4] 2) (Cifar.sampleTensor [4] 3)
      (Cifar.sampleTensor [4] 4) 4).2.2.2.1 (by decide) (by decide)
      (by decide)).1
  · exact ((claimC2_selection_dispatch 5 (Cifar.sampleTensor [4] 1)
      (Cifar.sampleTensor [4] 2) (Cifar.sampleTensor [4] 3)
      (Cifar.sampleTensor [4] 4) 4).2.2.2.1 (by decide) (by decide)
      (by decide)).2 [0, 0, 0, 0]

/-- Claim C3: with epsilon = 0 and finite gradients, the dynamic FGSM
adversarial image equals the clean image clipped to [0,255], entry for
entry (the perturbation step is the identity after clipping). -/
theorem claimC3_epsilon_zero_is_clipped_identity
    (lossFn gradFn : Cifar.Tensor → Cifar.Tensor → Cifar.Tensor)
    (logits images : Cifar.Tensor)
    (hfin : ∀ ix, (Cifar.adv_grads lossFn gradFn logits images).entry ix
      ≠ Cifar.Val.nan) :
    Cifar.make_dynamic_adv_images lossFn gradFn 0 logits images
      = Cifar.Tensor.clip 0 255 images := by
  apply Cifar.Tensor.ext
  · rfl
  · funext ix
    simp only [Cifar.make_dynamic_adv_images, Cifar.stop_gradient,
      Cifar.Tensor.clip, Cifar.Tensor.add, Cifar.Tensor.smul,
      Cifar.Tensor.sign]
    cases hg : (Cifar.adv_grads lossFn gradFn logits images).entry ix with
    | nan => exact absurd hg (hfin ix)
    | fin g =>
      cases hi : images.entry ix with
      | nan => simp [Cifar.Val.sign, Cifar.Val.smul, Cifar.Val.add]
      | fin q => simp [Cifar.Val.sign, Cifar.Val.smul, Cifar.Val.add]

/-- Claim C3 witness: a concrete graph with finite gradients and a pixel
value 300 that the zero-epsilon step clips to [0,255]. -/
theorem claimC3_witness :
    Cifar.make_dynamic_adv_images Cifar.idLoss Cifar.constGrad 0
      (Cifar.sampleTensor [2, 3] 1) (Cifar.sampleTensor [2] 300)
      = Cifar.Tensor.clip 0 255 (Cifar.sampleTensor [2] 300) :=
  claimC3_epsilon_zero_is_clipped_identity Cifar.idLoss Cifar.constGrad
    (Cifar.sampleTensor [2, 3] 1) (Cifar.sampleTensor [2] 300)
    (fun _ h => Cifar.Val.noConfusion h)

/-- Claim C4: the dynamic FGSM generation computes its loss against the
model's own predicted labels (argmax of the clean logits), and the
ground-truth labels tensor in scope does not enter the result: the
gradient driving the perturbation is built from
`lossFn logits (argmax1 logits)` only. -/
theorem claimC4_gradient_uses_predicted_labels_only
    (lossFn gradFn : Cifar.Tensor → Cifar.Tensor → Cifar.Tensor)
    (epsilon : ℚ) (logits images labels labels2 : Cifar.Tensor) :
    Cifar.dynamic_adv_in_train lossFn gradFn epsilon logits images labels
      = Cifar.dynamic_adv_in_train lossFn gradFn epsilon logits images
          labels2
    ∧ Cifar.adv_grads lossFn gradFn logits images
      = gradFn (lossFn logits (Cifar.argmax1 logits)) images
    ∧ Cifar.noleak_labels logits = Cifar.argmax1 logits :=
  ⟨rfl, rfl, rfl⟩

/-- Claim C9: at every step the total loss equals the clean-image loss
plus the adversarial-image loss, each with unit weight and nothing
else. -/
theorem claimC9_total_loss_is_unweighted_sum
    (lossFn : Cifar.Tensor → Cifar.Tensor → Cifar.Tensor)
    (inferFn : Cifar.Tensor → Cifar.Tensor)
    (images advImages labels : Cifar.Tensor) (ix : List Nat) (a b : ℚ)
    (hb : (Cifar.loss_benign lossFn inferFn images labels).entry ix
      = .fin a)
    (ha : (Cifar.loss_adv lossFn inferFn advImages labels).entry ix
      = .fin b) :
    Cifar.loss_total lossFn inferFn images advImages labels
      = Cifar.Tensor.add (Cifar.loss_benign lossFn inferFn images labels)
          (Cifar.loss_adv lossFn inferFn advImages labels)
    ∧ (Cifar.loss_total lossFn inferFn images advImages labels).entry ix
      = .fin (1 * a + 1 * b) := by
  refine ⟨rfl, ?_⟩
  simp only [Cifar.loss_total, Cifar.Tensor.add, hb, ha, Cifar.Val.add,
    one_mul]

/-- Claim C9 witness: concrete graphs where the clean loss entry is 3 and
the adversarial loss entry is 4, and the total is 7. -/
theorem claimC9_witness :
    Cifar.loss_total Cifar.idLoss Cifar.idInfer (Cifar.sampleTensor [] 3)
      (Cifar.sampleTensor [] 4) (Cifar.sampleTensor [] 0)
      = Cifar.Tensor.add
          (Cifar.loss_benign Cifar.idLoss Cifar.idInfer
            (Cifar.sampleTensor [] 3) (Cifar.sampleTensor [] 0))
          (Cifar.loss_adv Cifar.idLoss Cifar.idInfer
            (Cifar.sampleTensor [] 4) (Cifar.sampleTensor [] 0))
    ∧ (Cifar.loss_total Cifar.idLoss Cifar.idInfer
        (Cifar.sampleTensor [] 3) (Cifar.sampleTensor [] 4)
        (Cifar.sampleTensor [] 0)).entry []
      = .fin (1 * 3 + 1 * 4) :=
  claimC9_total_loss_is_unweighted_sum Cifar.idLoss Cifar.idInfer
    (Cifar.sampleTensor [] 3) (Cifar.sampleTensor [] 4)
    (Cifar.sampleTensor [] 0) [] 3 4 rfl rfl
